import Mathlib

/-!
Shallow embedding of the client-side task-tracking screens:
the home/list screen (file `src/unnamed/part_000`, `HomeScreen`), the
creation screen (`src/src/screens/AddScreen.tsx`) and the detail screen
(`src/src/screens/DetailScreen.tsx`).

Each asynchronous handler is embedded as a pure function from its inputs
and the outcome of its single network call to the resulting local state
together with an ordered trace of observable steps (network calls, alerts,
log lines, state-setter invocations, navigation).  An `async` handler body
runs synchronously up to its first `await`; where a claim is about that
ordering, the handler is split into a `_start` part (everything before the
response arrives) and a `_resume` part (the continuation applied when the
response arrives).  Network outcomes are modelled as `Option`/`Bool`
because the code treats every failure identically.
-/

namespace TodoApp

/-- The sole domain entity, from the `Task` interface shared by
`part_000` and `DetailScreen.tsx`: `{id: number, title: string,
description?: string, isCompleted: boolean, createdAt: string}`. -/
structure Task where
  id : Nat
  title : String
  description : Option String
  isCompleted : Bool
  createdAt : String
deriving Repr, DecidableEq

/-- Body of a PUT request: any subset of `{title, description, isCompleted}`.
The list-screen toggle sends only `isCompleted`; the detail screen sends
all three fields. -/
structure PutBody where
  title : Option String
  description : Option String
  isCompleted : Option Bool
deriving Repr, DecidableEq

/-- A network call against the `/tasks` resource, as issued via axios:
list/search (GET, optional `?search=` parameter), get-by-id (GET),
create (POST), update (PUT), delete (DELETE). -/
inductive ApiCall where
  | list (search : Option String)
  | get (id : Nat)
  | post (title description : String)
  | put (id : Nat) (body : PutBody)
  | del (id : Nat)
deriving Repr, DecidableEq

/-- One observable step of a handler, in program order: a network call,
a user-facing alert, a two-choice confirmation prompt, a console error
log, a React state-setter invocation, or a navigation pop. -/
inductive Step where
  | call (c : ApiCall)
  | alert (title msg : String)
  | confirmPrompt (title msg : String)
  | logError (ctx : String)
  | setTasks (ts : List Task)
  | setLoading (b : Bool)
  | setRefreshing (b : Bool)
  | setSaving (b : Bool)
  | goBack
deriving Repr, DecidableEq

/-- The network calls occurring in a trace, in order. -/
def callsOf (tr : List Step) : List ApiCall :=
  tr.filterMap fun s =>
    match s with
    | Step.call c => some c
    | _ => none

/-- Number of network calls issued in a trace. -/
def numCalls (tr : List Step) : Nat := (callsOf tr).length

/-! ## Home screen (`src/unnamed/part_000`) -/

/-- Local state of `HomeScreen`: `tasks`, `loading`, `searchText`,
`refreshing` (lines 68-71 of `part_000`). -/
structure HomeState where
  tasks : List Task
  loading : Bool
  searchText : String
  refreshing : Bool
deriving Repr, DecidableEq

/-- Embedding of `fetchTasks` (`part_000` lines 73-84): builds the URL
with a `?search=` suffix exactly when the query string is non-empty
(JS truthiness of a string), awaits the GET; on success stores the
response data via `setTasks`; on failure logs the error and leaves
`tasks` untouched; in both cases the `finally` block clears `loading`
and `refreshing`.  `response = none` models any transport failure. -/
def fetchTasks (query : String) (response : Option (List Task)) (st : HomeState) :
    HomeState × List Step :=
  let callStep := Step.call (ApiCall.list (if query = "" then none else some query))
  match response with
  | some data =>
      ({ st with tasks := data, loading := false, refreshing := false },
       [callStep, Step.setTasks data, Step.setLoading false, Step.setRefreshing false])
  | none =>
      ({ st with loading := false, refreshing := false },
       [callStep, Step.logError "Error fetching tasks:",
        Step.setLoading false, Step.setRefreshing false])

/-- The part of `handleToggleStatus` (`part_000` lines 103-111) that runs
synchronously, before the PUT response arrives: the body enters the `try`
block and immediately awaits `axios.put(API_URL/id, {isCompleted: status})`,
so the only observable step before the response is the PUT itself; the
in-memory `tasks` array is not touched. -/
def toggle_start (id : Nat) (status : Bool) (tasks : List Task) :
    List Task × List Step :=
  (tasks, [Step.call (ApiCall.put id ⟨none, none, some status⟩)])

/-- The continuation of `handleToggleStatus` applied when the PUT response
arrives: on success (`ok = true`) the code runs
`setTasks(prev => prev.map(t => t.id === id ? {...t, isCompleted: status} : t))`;
on failure the `catch` block only logs, leaving `tasks` unchanged. -/
def toggle_resume (id : Nat) (status : Bool) (ok : Bool) (tasks : List Task) :
    List Task × List Step :=
  if ok then
    let updated := tasks.map fun t =>
      if t.id = id then { t with isCompleted := status } else t
    (updated, [Step.setTasks updated])
  else
    (tasks, [Step.logError "Error updating status:"])

/-- Whole run of `handleToggleStatus` for a given PUT outcome: the
synchronous part followed by the continuation. -/
def handleToggleStatus (id : Nat) (status : Bool) (ok : Bool) (tasks : List Task) :
    List Task × List Step :=
  let s1 := toggle_start id status tasks
  let s2 := toggle_resume id status ok s1.1
  (s2.1, s1.2 ++ s2.2)

/-- Embedding of the JavaScript `String.prototype.trim()` used by both
form screens: drop leading and trailing whitespace characters.  It is
written over the underlying character list so that concrete instances
evaluate inside the kernel. -/
def jsTrim (s : String) : String :=
  ⟨((s.data.dropWhile Char.isWhitespace).reverse.dropWhile Char.isWhitespace).reverse⟩

/-! ## Creation screen (`src/src/screens/AddScreen.tsx`) -/

/-- Local state of `AddScreen`: `title`, `description`, `loading`
(lines 50-52). -/
structure AddState where
  title : String
  description : String
  loading : Bool
deriving Repr, DecidableEq

/-- The part of `handleSaveTask` (`AddScreen.tsx` lines 54-75) that runs
synchronously, before the POST response arrives: if the title is falsy
after trimming, alert and return without touching the network; otherwise
`setLoading(true)` and issue `axios.post` with both fields trimmed. -/
def addSave_start (st : AddState) : AddState × List Step :=
  if jsTrim st.title = "" then
    (st, [Step.alert "Hata" "Görev başlığı boş bırakılamaz."])
  else
    ({ st with loading := true },
     [Step.setLoading true, Step.call (ApiCall.post (jsTrim st.title) (jsTrim st.description))])

/-- The continuation of `handleSaveTask` applied when the POST response
arrives: on success alert then `navigation.goBack()`; on failure log and
alert; the `finally` block clears `loading` either way.  The form fields
are never reset, so they remain populated after a failure. -/
def addSave_resume (ok : Bool) (st : AddState) : AddState × List Step :=
  if ok then
    ({ st with loading := false },
     [Step.alert "Başarılı" "Yeni görev başarıyla eklendi.", Step.goBack,
      Step.setLoading false])
  else
    ({ st with loading := false },
     [Step.logError "Save Error:",
      Step.alert "Hata" "Görevi kaydederken bir sorun oluştu.",
      Step.setLoading false])

/-- Whole run of `handleSaveTask` for a given POST outcome: the
validation guard decides whether the network is reached at all. -/
def handleSaveTask (ok : Bool) (st : AddState) : AddState × List Step :=
  if jsTrim st.title = "" then addSave_start st
  else
    let s1 := addSave_start st
    let s2 := addSave_resume ok s1.1
    (s2.1, s1.2 ++ s2.2)

/-! ## Detail screen (`src/src/screens/DetailScreen.tsx`) -/

/-- Local state of `DetailScreen`: `title`, `description`, `isCompleted`,
`loading`, `saving` (lines 76-80). -/
structure DetailState where
  title : String
  description : String
  isCompleted : Bool
  loading : Bool
  saving : Bool
deriving Repr, DecidableEq

/-- Initial `DetailScreen` state, from the `useState` initialisers:
empty fields, `loading = true`, `saving = false`. -/
def initialDetailState : DetailState := ⟨"", "", false, true, false⟩

/-- Continuation of `fetchTask` when the GET response arrives: on success
populate `title`, `description` (absent maps to the empty string) and
`isCompleted` from the fetched task; on failure log, alert, and
`navigation.goBack()`; the `finally` block clears `loading` either way. -/
def fetchTask_resume (response : Option Task) (st : DetailState) :
    DetailState × List Step :=
  match response with
  | some t =>
      ({ st with title := t.title, description := t.description.getD "",
                 isCompleted := t.isCompleted, loading := false },
       [Step.setLoading false])
  | none =>
      ({ st with loading := false },
       [Step.logError "Fetch Detail Error:",
        Step.alert "Hata" "Görev detayları yüklenemedi.", Step.goBack,
        Step.setLoading false])

/-- Embedding of `fetchTask` (`DetailScreen.tsx` lines 82-97), run once on
mount by the `useEffect` (lines 99-101): sets `loading`, issues the GET by
the `taskId` route parameter, then applies the continuation to the
response. -/
def fetchTask (taskId : Nat) (response : Option Task) (st : DetailState) :
    DetailState × List Step :=
  let s1 : DetailState × List Step :=
    ({ st with loading := true }, [Step.setLoading true, Step.call (ApiCall.get taskId)])
  let s2 := fetchTask_resume response s1.1
  (s2.1, s1.2 ++ s2.2)

/-- The part of `handleUpdateTask` (`DetailScreen.tsx` lines 103-123) that
runs synchronously, before the PUT response arrives: if the title is
falsy after trimming, alert and return without touching the network;
otherwise `setSaving(true)` and issue the full-field PUT with `title` and
`description` trimmed and the current `isCompleted`. -/
def detailUpdate_start (taskId : Nat) (st : DetailState) : DetailState × List Step :=
  if jsTrim st.title = "" then
    (st, [Step.alert "Hata" "Başlık boş olamaz."])
  else
    ({ st with saving := true },
     [Step.setSaving true,
      Step.call (ApiCall.put taskId
        ⟨some (jsTrim st.title), some (jsTrim st.description), some st.isCompleted⟩)])

/-- Continuation of `handleUpdateTask` when the PUT response arrives: on
success alert then `navigation.goBack()`; on failure log and alert and
stay on the screen; the `finally` block clears `saving` either way. -/
def detailUpdate_resume (ok : Bool) (st : DetailState) : DetailState × List Step :=
  if ok then
    ({ st with saving := false },
     [Step.alert "Başarılı" "Görev başarıyla güncellendi.", Step.goBack,
      Step.setSaving false])
  else
    ({ st with saving := false },
     [Step.logError "Update Error:",
      Step.alert "Hata" "Görevi güncellerken bir sorun oluştu.",
      Step.setSaving false])

/-- Whole run of `handleUpdateTask` for a given PUT outcome: the
validation guard decides whether the network is reached at all. -/
def handleUpdateTask (taskId : Nat) (ok : Bool) (st : DetailState) :
    DetailState × List Step :=
  if jsTrim st.title = "" then detailUpdate_start taskId st
  else
    let s1 := detailUpdate_start taskId st
    let s2 := detailUpdate_resume ok s1.1
    (s2.1, s1.2 ++ s2.2)

/-- The user's choice on the two-choice delete confirmation prompt:
`İptal` (cancel) or `Sil` (confirm-destructive). -/
inductive DeleteChoice where
  | cancel
  | confirm
deriving Repr, DecidableEq

/-- Embedding of `performDelete` (`DetailScreen.tsx` lines 136-145):
issue the DELETE; on success alert then `navigation.goBack()`; on failure
log and alert and stay; local state is not modified on either path. -/
def performDelete (taskId : Nat) (ok : Bool) (st : DetailState) :
    DetailState × List Step :=
  if ok then
    (st, [Step.call (ApiCall.del taskId),
          Step.alert "Başarılı" "Görev silindi.", Step.goBack])
  else
    (st, [Step.call (ApiCall.del taskId), Step.logError "Delete Error:",
          Step.alert "Hata" "Görevi silerken bir sorun oluştu."])

/-- Embedding of `handleDeleteTask` (`DetailScreen.tsx` lines 125-134):
show the confirmation prompt first; `performDelete` runs only as the
`onPress` of the `Sil` (confirm) button, so the cancel choice does
nothing further. -/
def handleDeleteTask (taskId : Nat) (choice : DeleteChoice) (ok : Bool)
    (st : DetailState) : DetailState × List Step :=
  let prompt := Step.confirmPrompt "Onay" "Bu görevi silmek istediğinizden emin misiniz?"
  match choice with
  | DeleteChoice.cancel => (st, [prompt])
  | DeleteChoice.confirm =>
      let s2 := performDelete taskId ok st
      (s2.1, prompt :: s2.2)

/-- Concrete one-element task list used as the failing input for the
optimistic-update claim: a single task with `id = 1`, not completed. -/
def tasks0 : List Task := [⟨1, "A", none, false, "2024-01-01"⟩]

/-! ## Theorems about the home screen -/

/-- C1.  The claim states that a toggle updates the in-memory entry's
`isCompleted` synchronously, before the update call's response returns,
and issues the PUT afterwards.  On the code this fails: at the failing
input (toggle `id = 1` to `true` on `tasks0`), the synchronous part of
`handleToggleStatus` has already issued the PUT while the list is
unchanged — the entry's `isCompleted` is still `false` until the response
arrives — and if the PUT fails the entry is never updated at all.  This
contradicts the code's own `// Optimistic update` comment, so the code,
not the claim, is the slip. -/
theorem c1_toggle_not_optimistic :
    (toggle_start 1 true tasks0).1 = tasks0
    ∧ (toggle_start 1 true tasks0).2 = [Step.call (ApiCall.put 1 ⟨none, none, some true⟩)]
    ∧ ((toggle_start 1 true tasks0).1.all fun t => t.isCompleted = false) = true
    ∧ (handleToggleStatus 1 true false tasks0).1 = tasks0 := by
  refine ⟨rfl, rfl, rfl, rfl⟩

/-- C5.  When the list fetch fails (any transport failure, modelled as
`response = none`), the failure is logged via `console.error`, the
displayed `tasks` list is left exactly as it was (never cleared to
empty), and the `finally` block still clears the spinners; the `catch`
block makes the embedding total, so no exception escapes the handler. -/
theorem c5_fetch_failure_preserves_tasks (query : String) (st : HomeState) :
    (fetchTasks query none st).1.tasks = st.tasks
    ∧ Step.logError "Error fetching tasks:" ∈ (fetchTasks query none st).2
    ∧ (fetchTasks query none st).1.loading = false
    ∧ (fetchTasks query none st).1.refreshing = false := by
  refine ⟨rfl, ?_, rfl, rfl⟩
  simp [fetchTasks]

/-- C9.  If the PUT issued by a toggle fails, the in-memory tasks list is
left entirely unchanged — no `setTasks` step occurs in the trace — because
the code applies the local mutation only after the network call succeeds;
on success it applies exactly the map that flips the matching entry. -/
theorem c9_toggle_failure_leaves_list_unchanged (id : Nat) (status : Bool)
    (tasks : List Task) :
    (handleToggleStatus id status false tasks).1 = tasks
    ∧ (∀ ts, Step.setTasks ts ∉ (handleToggleStatus id status false tasks).2)
    ∧ (handleToggleStatus id status true tasks).1 =
        tasks.map (fun t => if t.id = id then { t with isCompleted := status } else t) := by
  refine ⟨rfl, ?_, rfl⟩
  intro ts
  simp [handleToggleStatus, toggle_start, toggle_resume]

/-- C2.  A create submission (creation screen) or update submission
(detail screen) issues zero network calls exactly when the trimmed title
is empty, and in that case the handler returns immediately with only the
user-facing validation alert, leaving the state untouched. -/
theorem c2_title_validation (ast : AddState) (dst : DetailState) (tid : Nat) (ok : Bool) :
    (callsOf (handleSaveTask ok ast).2 = [] ↔ jsTrim ast.title = "")
    ∧ (jsTrim ast.title = "" →
        handleSaveTask ok ast = (ast, [Step.alert "Hata" "Görev başlığı boş bırakılamaz."]))
    ∧ (callsOf (handleUpdateTask tid ok dst).2 = [] ↔ jsTrim dst.title = "")
    ∧ (jsTrim dst.title = "" →
        handleUpdateTask tid ok dst = (dst, [Step.alert "Hata" "Başlık boş olamaz."])) := by
  refine ⟨?_, ?_, ?_, ?_⟩
  · by_cases h : jsTrim ast.title = "" <;>
      cases ok <;>
        simp [handleSaveTask, addSave_start, addSave_resume, callsOf, h]
  · intro h
    simp [handleSaveTask, addSave_start, h]
  · by_cases h : jsTrim dst.title = "" <;>
      cases ok <;>
        simp [handleUpdateTask, detailUpdate_start, detailUpdate_resume, callsOf, h]
  · intro h
    simp [handleUpdateTask, detailUpdate_start, h]

/-- Witness for C2 at a whitespace-only title on both screens. -/
theorem c2_title_validation_witness :
    handleSaveTask true ⟨"   ", "x", false⟩
      = (⟨"   ", "x", false⟩, [Step.alert "Hata" "Görev başlığı boş bırakılamaz."])
    ∧ handleUpdateTask 5 true ⟨" ", "d", true, false, false⟩
      = (⟨" ", "d", true, false, false⟩, [Step.alert "Hata" "Başlık boş olamaz."]) :=
  ⟨(c2_title_validation ⟨"   ", "x", false⟩ ⟨" ", "d", true, false, false⟩ 5 true).2.1
      (by decide),
   (c2_title_validation ⟨"   ", "x", false⟩ ⟨" ", "d", true, false, false⟩ 5 true).2.2.2
      (by decide)⟩

/-- C4.  The delete flow shows the two-choice confirmation prompt as its
very first step, before any network call can occur; on the cancel choice
no network call is issued and the local state is unchanged; the DELETE is
issued (exactly once) only on the confirm choice. -/
theorem c4_delete_requires_confirmation (taskId : Nat) (ok : Bool) (st : DetailState) :
    (handleDeleteTask taskId DeleteChoice.cancel ok st).1 = st
    ∧ callsOf (handleDeleteTask taskId DeleteChoice.cancel ok st).2 = []
    ∧ (∀ choice, (handleDeleteTask taskId choice ok st).2.head? =
        some (Step.confirmPrompt "Onay" "Bu görevi silmek istediğinizden emin misiniz?"))
    ∧ callsOf (handleDeleteTask taskId DeleteChoice.confirm ok st).2 = [ApiCall.del taskId] := by
  refine ⟨rfl, by simp [handleDeleteTask, callsOf], ?_, ?_⟩
  · intro choice
    cases choice <;> cases ok <;> simp [handleDeleteTask, performDelete]
  · cases ok <;> simp [handleDeleteTask, performDelete, callsOf]

/-- The task of the detail-save scenario: fetched as
`{id: 42, title: "X", isCompleted: false}` with no description. -/
def task42 : Task := ⟨42, "X", none, false, "2024-01-01"⟩

/-- C6.  A detail-screen save with a non-empty trimmed title issues
exactly one full-field PUT carrying the trimmed title, the trimmed
description and the current `isCompleted`; on success the screen
navigates back; on failure it surfaces an alert, stays on the screen (no
navigation pop) and the saving flag ends cleared.  In the concrete
scenario, fetching `task42` populates the fields exactly, and saving
after toggling the switch issues `PUT 42 {title: "X", description: "",
isCompleted: true}`. -/
theorem c6_detail_save (tid : Nat) (ok ok2 : Bool) (st : DetailState)
    (h : jsTrim st.title ≠ "") :
    callsOf (handleUpdateTask tid ok st).2
      = [ApiCall.put tid ⟨some (jsTrim st.title), some (jsTrim st.description), some st.isCompleted⟩]
    ∧ (ok = true → Step.goBack ∈ (handleUpdateTask tid ok st).2)
    ∧ (ok = false →
        Step.alert "Hata" "Görevi güncellerken bir sorun oluştu."
            ∈ (handleUpdateTask tid ok st).2
        ∧ Step.goBack ∉ (handleUpdateTask tid ok st).2
        ∧ (handleUpdateTask tid ok st).1.saving = false)
    ∧ (fetchTask 42 (some task42) initialDetailState).1.title = "X"
    ∧ (fetchTask 42 (some task42) initialDetailState).1.description = ""
    ∧ (fetchTask 42 (some task42) initialDetailState).1.isCompleted = false
    ∧ callsOf (handleUpdateTask 42 ok2
        { (fetchTask 42 (some task42) initialDetailState).1 with isCompleted := true }).2
      = [ApiCall.put 42 ⟨some "X", some "", some true⟩] := by
  refine ⟨?_, ?_, ?_, rfl, rfl, rfl, ?_⟩
  · cases ok <;>
      simp [handleUpdateTask, detailUpdate_start, detailUpdate_resume, callsOf, h]
  · intro hok
    subst hok
    simp [handleUpdateTask, detailUpdate_start, detailUpdate_resume, h]
  · intro hok
    subst hok
    simp [handleUpdateTask, detailUpdate_start, detailUpdate_resume, h]
  · cases ok2 <;> decide

/-- Witness for C6 at the scenario state itself. -/
theorem c6_detail_save_witness :
    jsTrim "X" ≠ ""
    ∧ callsOf (handleUpdateTask 42 false (⟨"X", "", true, false, false⟩ : DetailState)).2
        = [ApiCall.put 42 ⟨some "X", some "", some true⟩] := by
  refine ⟨by decide, ?_⟩
  exact (c6_detail_save 42 false false ⟨"X", "", true, false, false⟩ (by decide)).1.trans
    (by decide)

/-- C7.  A creation-form submission with a non-empty trimmed title issues
exactly one POST carrying the trimmed title and trimmed description; on
success it navigates back to the list; on failure it stays (no navigation
pop), surfaces an alert, and the form fields are left populated for a
manual retry. -/
theorem c7_create_flow (st : AddState) (ok : Bool) (h : jsTrim st.title ≠ "") :
    callsOf (handleSaveTask ok st).2 = [ApiCall.post (jsTrim st.title) (jsTrim st.description)]
    ∧ (ok = true → Step.goBack ∈ (handleSaveTask ok st).2)
    ∧ (ok = false →
        (handleSaveTask ok st).1.title = st.title
        ∧ (handleSaveTask ok st).1.description = st.description
        ∧ Step.goBack ∉ (handleSaveTask ok st).2
        ∧ Step.alert "Hata" "Görevi kaydederken bir sorun oluştu."
            ∈ (handleSaveTask ok st).2) := by
  refine ⟨?_, ?_, ?_⟩
  · cases ok <;> simp [handleSaveTask, addSave_start, addSave_resume, callsOf, h]
  · intro hok
    subst hok
    simp [handleSaveTask, addSave_start, addSave_resume, h]
  · intro hok
    subst hok
    simp [handleSaveTask, addSave_start, addSave_resume, h]

/-- Witness for C7: creating `{title: "Buy milk", description: ""}`
issues the POST with the trimmed title and, on success, navigates back. -/
theorem c7_create_flow_witness :
    jsTrim "Buy milk" ≠ ""
    ∧ callsOf (handleSaveTask true (⟨"Buy milk", "", false⟩ : AddState)).2
        = [ApiCall.post "Buy milk" ""]
    ∧ Step.goBack ∈ (handleSaveTask true (⟨"Buy milk", "", false⟩ : AddState)).2 := by
  have h := c7_create_flow ⟨"Buy milk", "", false⟩ true (by decide)
  exact ⟨by decide, h.1.trans (by decide), h.2.1 rfl⟩

/-- C8.  Mounting the detail screen fetches the task by the `taskId`
route parameter — the trace contains exactly that one GET whatever the
outcome, so there is no retry — and on fetch failure it surfaces the
alert and navigates back. -/
theorem c8_detail_mount_fetch (taskId : Nat) (response : Option Task) :
    callsOf (fetchTask taskId response initialDetailState).2 = [ApiCall.get taskId]
    ∧ Step.alert "Hata" "Görev detayları yüklenemedi."
        ∈ (fetchTask taskId none initialDetailState).2
    ∧ Step.goBack ∈ (fetchTask taskId none initialDetailState).2
    ∧ numCalls (fetchTask taskId none initialDetailState).2 = 1 := by
  refine ⟨?_, ?_, ?_, ?_⟩
  · cases response <;> simp [fetchTask, fetchTask_resume, callsOf]
  · simp [fetchTask, fetchTask_resume]
  · simp [fetchTask, fetchTask_resume]
  · simp [fetchTask, fetchTask_resume, numCalls, callsOf]

/-! ## Search debounce (`part_000` lines 87-93) -/

/-- The fixed debounce delay of the search `useEffect`: 300ms. -/
def debounceDelay : Nat := 300

/-- Embedding of the search-debounce `useEffect` of `HomeScreen`
(`part_000` lines 87-93).  The input lists the changes of `searchText`
as (time, new value) pairs, in order; the effect run at each change
schedules `fetchTasks(value)` at `time + 300`, and its cleanup — run at
the next change — clears the pending timer if it has not fired yet,
which is the case exactly when the next change arrives no later than the
deadline.  The result lists the fetches that actually fire, as
(fire time, query value) pairs. -/
def debounceRun : List (Nat × String) → List (Nat × String)
  | [] => []
  | [(t, v)] => [(t + debounceDelay, v)]
  | (t, v) :: (t2, v2) :: rest =>
      if t + debounceDelay < t2 then
        (t + debounceDelay, v) :: debounceRun ((t2, v2) :: rest)
      else debounceRun ((t2, v2) :: rest)

/-- Every change of the sequence after the first arrives within the
debounce window of its predecessor. -/
def gapsWithin : List (Nat × String) → Bool
  | (t, _) :: (t2, v2) :: rest =>
      decide (t2 ≤ t + debounceDelay) && gapsWithin ((t2, v2) :: rest)
  | _ => true

/-- C3.  For a sequence of `searchText` changes in which each change
arrives within 300ms of the previous one, exactly one fetch fires: it
fires once the last change's 300ms delay elapses and carries the final
value — every timer scheduled by an earlier change is cleared by the
next change's effect cleanup. -/
theorem c3_debounce_single_trailing_fetch (c : Nat × String) (cs : List (Nat × String))
    (h : gapsWithin (c :: cs) = true) :
    debounceRun (c :: cs) = [((cs.getLastD c).1 + debounceDelay, (cs.getLastD c).2)] := by
  induction cs generalizing c with
  | nil =>
      obtain ⟨t, v⟩ := c
      rfl
  | cons c2 cs ih =>
      obtain ⟨t, v⟩ := c
      obtain ⟨t2, v2⟩ := c2
      rw [gapsWithin, Bool.and_eq_true, decide_eq_true_iff] at h
      obtain ⟨h1, h2⟩ := h
      rw [debounceRun, if_neg (by omega), List.getLastD_cons]
      exact ih ⟨t2, v2⟩ h2

/-- Witness for C3 on the spec's own example: changes "a", "ab", "abc"
50ms apart fire exactly one fetch, at 400ms, for "abc". -/
theorem c3_debounce_single_trailing_fetch_witness :
    gapsWithin [(0, "a"), (50, "ab"), (100, "abc")] = true
    ∧ debounceRun [(0, "a"), (50, "ab"), (100, "abc")] = [(400, "abc")] := by
  refine ⟨by decide, ?_⟩
  exact (c3_debounce_single_trailing_fetch (0, "a") [(50, "ab"), (100, "abc")]
    (by decide)).trans (by decide)

/-! ## Single-flight submission (both form screens) -/

/-- An event hitting a form screen: a press of the submit button, or the
arrival of the in-flight request's response. -/
inductive FormEvent where
  | press
  | resolve (ok : Bool)
deriving Repr, DecidableEq

/-- Number of response arrivals in an event sequence. -/
def numResolves (evs : List FormEvent) : Nat :=
  (evs.filter fun e =>
    match e with
    | FormEvent.resolve _ => true
    | _ => false).length

/-- One event step of the creation screen.  The save button has
`disabled={loading}` (`AddScreen.tsx` line 103), so a press while
`loading` is set does nothing; otherwise it runs the synchronous part of
`handleSaveTask`.  A response arrival runs the continuation; `loading`
marks an in-flight request because the start phase sets it exactly when
it issues the POST. -/
def addStep (st : AddState) : FormEvent → AddState × List Step
  | FormEvent.press => if st.loading then (st, []) else addSave_start st
  | FormEvent.resolve ok => if st.loading then addSave_resume ok st else (st, [])

/-- Run of the creation screen over an event sequence, concatenating the
step traces. -/
def addRun (st : AddState) : List FormEvent → AddState × List Step
  | [] => (st, [])
  | e :: evs =>
      let s1 := addStep st e
      let s2 := addRun s1.1 evs
      (s2.1, s1.2 ++ s2.2)

/-- One event step of the detail screen.  The update button has
`disabled={saving}` (`DetailScreen.tsx` line 192), so a press while
`saving` is set does nothing; otherwise it runs the synchronous part of
`handleUpdateTask`.  A response arrival runs the continuation. -/
def detailStep (tid : Nat) (st : DetailState) : FormEvent → DetailState × List Step
  | FormEvent.press => if st.saving then (st, []) else detailUpdate_start tid st
  | FormEvent.resolve ok => if st.saving then detailUpdate_resume ok st else (st, [])

/-- Run of the detail screen's save flow over an event sequence. -/
def detailRun (tid : Nat) (st : DetailState) : List FormEvent → DetailState × List Step
  | [] => (st, [])
  | e :: evs =>
      let s1 := detailStep tid st e
      let s2 := detailRun tid s1.1 evs
      (s2.1, s1.2 ++ s2.2)

theorem numCalls_append (a b : List Step) :
    numCalls (a ++ b) = numCalls a + numCalls b := by
  simp [numCalls, callsOf, List.filterMap_append]

theorem numResolves_cons_press (evs : List FormEvent) :
    numResolves (FormEvent.press :: evs) = numResolves evs := by
  simp [numResolves]

theorem numResolves_cons_resolve (ok : Bool) (evs : List FormEvent) :
    numResolves (FormEvent.resolve ok :: evs) = numResolves evs + 1 := by
  simp [numResolves]

theorem addRun_calls_le (evs : List FormEvent) (st : AddState) :
    numCalls (addRun st evs).2 ≤ numResolves evs + (if st.loading then 0 else 1) := by
  induction evs generalizing st with
  | nil =>
      simp only [addRun, numCalls, callsOf, List.filterMap_nil, List.length_nil]
      exact Nat.zero_le _
  | cons e evs ih =>
      cases e with
      | press =>
          by_cases hl : st.loading = true
          · have hr := ih st
            simp [addRun, addStep, hl, numCalls_append, numResolves_cons_press,
              numCalls, callsOf] at hr ⊢
            omega
          · by_cases ht : jsTrim st.title = ""
            · have hr := ih st
              simp [addRun, addStep, hl, addSave_start, ht, numCalls_append,
                numResolves_cons_press, numCalls, callsOf] at hr ⊢
              omega
            · have hr := ih { st with loading := true }
              simp [addRun, addStep, hl, addSave_start, ht, numCalls_append,
                numResolves_cons_press, numCalls, callsOf] at hr ⊢
              omega
      | resolve ok =>
          by_cases hl : st.loading = true
          · have hr := ih { st with loading := false }
            cases ok <;>
              simp [addRun, addStep, hl, addSave_resume, numCalls_append,
                numResolves_cons_resolve, numCalls, callsOf] at hr ⊢ <;>
              omega
          · have hr := ih st
            simp [addRun, addStep, hl, numCalls_append,
              numResolves_cons_resolve, numCalls, callsOf] at hr ⊢
            omega

theorem detailRun_calls_le (tid : Nat) (evs : List FormEvent) (st : DetailState) :
    numCalls (detailRun tid st evs).2 ≤ numResolves evs + (if st.saving then 0 else 1) := by
  induction evs generalizing st with
  | nil =>
      simp only [detailRun, numCalls, callsOf, List.filterMap_nil, List.length_nil]
      exact Nat.zero_le _
  | cons e evs ih =>
      cases e with
      | press =>
          by_cases hl : st.saving = true
          · have hr := ih st
            simp [detailRun, detailStep, hl, numCalls_append, numResolves_cons_press,
              numCalls, callsOf] at hr ⊢
            omega
          · by_cases ht : jsTrim st.title = ""
            · have hr := ih st
              simp [detailRun, detailStep, hl, detailUpdate_start, ht, numCalls_append,
                numResolves_cons_press, numCalls, callsOf] at hr ⊢
              omega
            · have hr := ih { st with saving := true }
              simp [detailRun, detailStep, hl, detailUpdate_start, ht, numCalls_append,
                numResolves_cons_press, numCalls, callsOf] at hr ⊢
              omega
      | resolve ok =>
          by_cases hl : st.saving = true
          · have hr := ih { st with saving := false }
            cases ok <;>
              simp [detailRun, detailStep, hl, detailUpdate_resume, numCalls_append,
                numResolves_cons_resolve, numCalls, callsOf] at hr ⊢ <;>
              omega
          · have hr := ih st
            simp [detailRun, detailStep, hl, numCalls_append,
              numResolves_cons_resolve, numCalls, callsOf] at hr ⊢
            omega

/-- C10.  While a create or update request is in flight its screen's
flag (`loading` / `saving`) is set and the submit button is disabled, so
a press issues nothing; hence over any event sequence starting with the
flag clear, the number of requests issued never exceeds the number of
responses received plus one — at most one request is in flight per form —
and a response arrival, successful or not, leaves the flag cleared. -/
theorem c10_single_flight (st : AddState) (dst : DetailState) (tid : Nat)
    (evs evs2 : List FormEvent)
    (h1 : st.loading = false) (h2 : dst.saving = false) :
    numCalls (addRun st evs).2 ≤ numResolves evs + 1
    ∧ numCalls (detailRun tid dst evs2).2 ≤ numResolves evs2 + 1
    ∧ (∀ s : AddState, s.loading = true → addStep s FormEvent.press = (s, []))
    ∧ (∀ (s : AddState) (ok : Bool), (addStep s (FormEvent.resolve ok)).1.loading = false)
    ∧ (∀ s : DetailState, s.saving = true → detailStep tid s FormEvent.press = (s, []))
    ∧ (∀ (s : DetailState) (ok : Bool),
        (detailStep tid s (FormEvent.resolve ok)).1.saving = false) := by
  refine ⟨?_, ?_, ?_, ?_, ?_, ?_⟩
  · have hr := addRun_calls_le evs st
    simp [h1] at hr
    exact hr
  · have hr := detailRun_calls_le tid evs2 dst
    simp [h2] at hr
    exact hr
  · intro s hs
    simp [addStep, hs]
  · intro s ok
    by_cases hs : s.loading = true <;> cases ok <;> simp [addStep, addSave_resume, hs]
  · intro s hs
    simp [detailStep, hs]
  · intro s ok
    by_cases hs : s.saving = true <;> cases ok <;> simp [detailStep, detailUpdate_resume, hs]

/-- Witness for C10: a double press with one response never issues more
than two requests, and a press during an in-flight request is a no-op. -/
theorem c10_single_flight_witness :
    numCalls (addRun ⟨"T", "", false⟩
        [FormEvent.press, FormEvent.press, FormEvent.resolve true]).2
      ≤ numResolves [FormEvent.press, FormEvent.press, FormEvent.resolve true] + 1
    ∧ addStep ⟨"T", "", true⟩ FormEvent.press = (⟨"T", "", true⟩, []) := by
  have h := c10_single_flight ⟨"T", "", false⟩ ⟨"T", "", false, false, false⟩ 3
    [FormEvent.press, FormEvent.press, FormEvent.resolve true] [] rfl rfl
  exact ⟨h.1, h.2.2.1 ⟨"T", "", true⟩ rfl⟩

end TodoApp
